import Mathlib

/-!
Verification development for the appointment-scheduler backend.

The Python backend (src/appointment-scheduler/backend) is shallowly embedded:
in-memory dictionaries become association lists, mutation becomes explicit
state passing, raised exceptions become `Except`/`Option` results, and
`float` ratings/confidences become exact numbers (the source only compares
these values, never does float arithmetic on them, and every literal has one
decimal digit, so scaling by ten preserves order exactly).
-/

/-! ## Python dictionaries as association lists -/

/-- Python dict read `d.get(key)` / `d[key]`: value of the first
matching key (keys are kept unique by `dictSet`). -/
def dictGet {α : Type} : List (String × α) → String → Option α
  | [], _ => none
  | (k, v) :: rest, key => if k == key then some v else dictGet rest key

/-- Python dict write `d[key] = v`: overwrite the value at an existing key,
or append a fresh key at the end (Python dicts preserve insertion order). -/
def dictSet {α : Type} : List (String × α) → String → α → List (String × α)
  | [], key, v => [(key, v)]
  | (k, w) :: rest, key, v =>
    if k == key then (k, v) :: rest else (k, w) :: dictSet rest key v

lemma dictGet_dictSet_self {α : Type} (l : List (String × α)) (key : String) (v : α) :
    dictGet (dictSet l key v) key = some v := by
  induction l with
  | nil => simp [dictGet, dictSet]
  | cons kv rest ih =>
    obtain ⟨k, w⟩ := kv
    by_cases hk : k = key
    · simp [dictGet, dictSet, hk]
    · simp [dictGet, dictSet, hk, ih]

lemma dictGet_dictSet_ne {α : Type} (l : List (String × α)) (key key' : String) (v : α)
    (h : key' ≠ key) : dictGet (dictSet l key v) key' = dictGet l key' := by
  induction l with
  | nil => simp [dictGet, dictSet, Ne.symm h]
  | cons kv rest ih =>
    obtain ⟨k, w⟩ := kv
    by_cases hk : k = key
    · subst hk
      simp [dictGet, dictSet, Ne.symm h]
    · by_cases hk' : k = key'
      · simp [dictGet, dictSet, hk, hk', h]
      · simp [dictGet, dictSet, hk, hk', ih]

/-! ## Schedule store (backend/database/schedules.py) -/

/-- `Schedule` (backend/models/schemas.py): provider availability for one date. -/
structure Schedule where
  provider_id : String
  date : String
  available_slots : List String
deriving DecidableEq

/-- In-memory schedule database `SCHEDULES_DB`: dict mapping provider_id to a
list of `Schedule`, embedded as an association list (first key occurrence wins,
as for a Python dict all of whose keys are distinct). -/
abbrev ScheduleDB := List (String × List Schedule)

/-- `get_provider_schedule`: the provider's schedule list, or `[]` when the
provider is not a key of the database. (`days_ahead` is unused by the CSV
implementation and omitted.) -/
def get_provider_schedule (db : ScheduleDB) (pid : String) : List Schedule :=
  match dictGet db pid with
  | some scheds => scheds
  | none => []

/-- `get_available_slots`: slots of the first schedule entry matching `date`,
or `[]` when none matches. -/
def get_available_slots (db : ScheduleDB) (pid date : String) : List String :=
  match (get_provider_schedule db pid).find? (fun s => s.date == date) with
  | some s => s.available_slots
  | none => []

/-- The booking loop inside `book_slot`: walk the provider's schedule list and
remove `time` from the first entry whose date matches and currently lists
`time` (`list.remove` removes the first occurrence, i.e. `List.erase`).
Returns `none` when no entry matches, mirroring the fall-through `return False`. -/
def bookInList (date time : String) : List Schedule → Option (List Schedule)
  | [] => none
  | s :: rest =>
    if s.date == date && s.available_slots.contains time then
      some ({ s with available_slots := s.available_slots.erase time } :: rest)
    else
      (bookInList date time rest).map (s :: ·)

/-- `book_slot` (in-memory effect): `False` when the provider is not in the
database or no entry matches date+time; otherwise removes the slot (an
in-place mutation of the stored schedule list, embedded as `dictSet`) and
returns `True`. (The subsequent CSV persistence is modelled separately by
`book_slot_persist`.) -/
def book_slot (db : ScheduleDB) (pid date time : String) : Bool × ScheduleDB :=
  match dictGet db pid with
  | none => (false, db)
  | some scheds =>
    match bookInList date time scheds with
    | some scheds' => (true, dictSet db pid scheds')
    | none => (false, db)

-- scratch sanity checks
example :
    book_slot [("p001", [⟨"p001", "2026-01-15", ["09:00", "14:00"]⟩])] "p001" "2026-01-15" "09:00"
      = (true, [("p001", [⟨"p001", "2026-01-15", ["14:00"]⟩])]) := by decide

example :
    book_slot [("p001", [⟨"p001", "2026-01-15", ["09:00", "14:00"]⟩])] "p001" "2026-01-15" "10:00"
      = (false, [("p001", [⟨"p001", "2026-01-15", ["09:00", "14:00"]⟩])]) := by decide

/-! ### Lemmas about the booking loop -/

lemma bookInList_of_mem (date time : String) (l : List Schedule) :
    ∀ s0, l.find? (fun s => s.date == date) = some s0 →
    time ∈ s0.available_slots →
    ∃ l', bookInList date time l = some l' ∧
      l'.find? (fun s => s.date == date) =
        some { s0 with available_slots := s0.available_slots.erase time } ∧
      ∀ d', d' ≠ date →
        l'.find? (fun s => s.date == d') = l.find? (fun s => s.date == d') := by
  induction l with
  | nil => intro s0 h _; simp at h
  | cons s rest ih =>
    intro s0 hfind hmem
    by_cases hd : s.date = date
    · have hfind' : (s :: rest).find? (fun x => x.date == date) = some s :=
        List.find?_cons_of_pos _ (by simp [hd])
      rw [hfind'] at hfind
      obtain rfl : s0 = s := (Option.some.injEq _ _).mp hfind.symm
      refine ⟨{ s0 with available_slots := s0.available_slots.erase time } :: rest, ?_, ?_, ?_⟩
      · unfold bookInList
        rw [if_pos (by simp [hd, hmem])]
      · exact List.find?_cons_of_pos _ (by simp [hd])
      · intro d' hne
        rw [List.find?_cons_of_neg _ (by simp [hd, Ne.symm hne]),
          List.find?_cons_of_neg _ (by simp [hd, Ne.symm hne])]
    · rw [List.find?_cons_of_neg _ (by simp [hd])] at hfind
      obtain ⟨l'', h1, h2, h3⟩ := ih s0 hfind hmem
      refine ⟨s :: l'', ?_, ?_, ?_⟩
      · unfold bookInList
        rw [if_neg (by simp [hd]), h1]
        rfl
      · rw [List.find?_cons_of_neg _ (by simp [hd])]
        exact h2
      · intro d' hne
        by_cases hsd' : s.date = d'
        · rw [List.find?_cons_of_pos _ (by simp [hsd']),
            List.find?_cons_of_pos _ (by simp [hsd'])]
        · rw [List.find?_cons_of_neg _ (by simp [hsd']),
            List.find?_cons_of_neg _ (by simp [hsd'])]
          exact h3 d' hne

lemma bookInList_eq_none_of_no_date (date time : String) (l : List Schedule)
    (h : ∀ s ∈ l, s.date ≠ date) : bookInList date time l = none := by
  induction l with
  | nil => rfl
  | cons s rest ih =>
    unfold bookInList
    rw [if_neg (by simp [h s (by simp)]),
      ih (fun s' hs' => h s' (List.mem_cons_of_mem _ hs'))]
    rfl

lemma bookInList_eq_none (date time : String) (l : List Schedule)
    (hnd : (l.map (fun s => s.date)).Nodup)
    (h : ∀ s0, l.find? (fun s => s.date == date) = some s0 → time ∉ s0.available_slots) :
    bookInList date time l = none := by
  induction l with
  | nil => rfl
  | cons s rest ih =>
    by_cases hd : s.date = date
    · have hnotmem : time ∉ s.available_slots :=
        h s (List.find?_cons_of_pos _ (by simp [hd]))
      unfold bookInList
      rw [if_neg (by simp [hnotmem]),
        bookInList_eq_none_of_no_date date time rest ?_]
      · rfl
      · intro s' hs' hs'd
        apply (List.nodup_cons.mp hnd).1
        simp only [List.mem_map]
        exact ⟨s', hs', by rw [hs'd, hd]⟩
    · unfold bookInList
      rw [if_neg (by simp [hd]), ih (List.nodup_cons.mp hnd).2 ?_]
      · rfl
      · intro s0 hs0
        exact h s0 (by rw [List.find?_cons_of_neg _ (by simp [hd])]; exact hs0)


lemma book_slot_of_mem (db : ScheduleDB) (pid date time : String)
    (h : time ∈ get_available_slots db pid date) :
    (book_slot db pid date time).1 = true ∧
    get_available_slots (book_slot db pid date time).2 pid date =
      (get_available_slots db pid date).erase time ∧
    ∀ pid' date', ¬(pid' = pid ∧ date' = date) →
      get_available_slots (book_slot db pid date time).2 pid' date' =
        get_available_slots db pid' date' := by
  cases hdb : dictGet db pid with
  | none =>
    exfalso
    simp [get_available_slots, get_provider_schedule, hdb] at h
  | some scheds =>
    have hgps : get_provider_schedule db pid = scheds := by
      simp [get_provider_schedule, hdb]
    cases hfind : scheds.find? (fun s => s.date == date) with
    | none =>
      exfalso
      simp [get_available_slots, hgps, hfind] at h
    | some s0 =>
      have hA : get_available_slots db pid date = s0.available_slots := by
        simp [get_available_slots, hgps, hfind]
      rw [hA] at h
      obtain ⟨l', hb, hf, hfr⟩ := bookInList_of_mem date time scheds s0 hfind h
      have hbook : book_slot db pid date time = (true, dictSet db pid l') := by
        simp [book_slot, hdb, hb]
      refine ⟨by rw [hbook], ?_, ?_⟩
      · rw [hbook, hA]
        simp [get_available_slots, get_provider_schedule, dictGet_dictSet_self, hf]
      · intro pid' date' hne
        by_cases hp : pid' = pid
        · subst hp
          have hdne : date' ≠ date := fun hdd => hne ⟨rfl, hdd⟩
          rw [hbook]
          simp only [get_available_slots, get_provider_schedule,
            dictGet_dictSet_self, hdb, hfr date' hdne]
        · rw [hbook]
          simp only [get_available_slots, get_provider_schedule,
            dictGet_dictSet_ne db pid pid' l' hp]

lemma book_slot_of_not_mem (db : ScheduleDB) (pid date time : String)
    (hnd : ((get_provider_schedule db pid).map (fun s => s.date)).Nodup)
    (h : time ∉ get_available_slots db pid date) :
    book_slot db pid date time = (false, db) := by
  cases hdb : dictGet db pid with
  | none => simp [book_slot, hdb]
  | some scheds =>
    have hgps : get_provider_schedule db pid = scheds := by
      simp [get_provider_schedule, hdb]
    rw [hgps] at hnd
    have hnone : bookInList date time scheds = none := by
      apply bookInList_eq_none date time scheds hnd
      intro s0 hfind hmem
      exact h (by simpa [get_available_slots, hgps, hfind] using hmem)
    simp [book_slot, hdb, hnone]

/-- The booked slot is really gone afterwards, provided the entry's slot list
has no duplicates (the data model lists each bookable time once). -/
lemma book_slot_not_mem_after (db : ScheduleDB) (pid date time : String)
    (hslots : ∀ s ∈ get_provider_schedule db pid, s.available_slots.Nodup)
    (h : time ∈ get_available_slots db pid date) :
    time ∉ get_available_slots (book_slot db pid date time).2 pid date := by
  have hnd : (get_available_slots db pid date).Nodup := by
    unfold get_available_slots
    cases hfind : (get_provider_schedule db pid).find? (fun s => s.date == date) with
    | none => simp
    | some s0 => simpa using hslots s0 (List.mem_of_find?_eq_some hfind)
  rw [(book_slot_of_mem db pid date time h).2.1]
  exact hnd.not_mem_erase

/-- C1: booking a slot listed by `get_available_slots` returns `True` and
removes exactly that slot (other slots of the entry and all other
provider/date entries unchanged, and the slot is no longer listed); when the
provider has no entry, the date does not match, or the slot is absent,
`book_slot` returns `False` and leaves the whole schedule store unchanged.
Data-model hypotheses: each provider has at most one entry per date and each
entry lists each time once. -/
theorem C1_book_slot_spec (db : ScheduleDB) (pid date time : String)
    (hdates : ((get_provider_schedule db pid).map (fun s => s.date)).Nodup)
    (hslots : ∀ s ∈ get_provider_schedule db pid, s.available_slots.Nodup) :
    (time ∈ get_available_slots db pid date →
      (book_slot db pid date time).1 = true ∧
      get_available_slots (book_slot db pid date time).2 pid date =
        (get_available_slots db pid date).erase time ∧
      time ∉ get_available_slots (book_slot db pid date time).2 pid date ∧
      ∀ pid' date', ¬(pid' = pid ∧ date' = date) →
        get_available_slots (book_slot db pid date time).2 pid' date' =
          get_available_slots db pid' date') ∧
    (time ∉ get_available_slots db pid date →
      (book_slot db pid date time).1 = false ∧
      (book_slot db pid date time).2 = db) := by
  constructor
  · intro hmem
    obtain ⟨h1, h2, h3⟩ := book_slot_of_mem db pid date time hmem
    exact ⟨h1, h2, book_slot_not_mem_after db pid date time hslots hmem, h3⟩
  · intro hnot
    have := book_slot_of_not_mem db pid date time hdates hnot
    exact ⟨by rw [this], by rw [this]⟩

/-- Witness for C1 at a concrete store: booking a listed slot succeeds and
leaves only the other slot; booking an unlisted slot fails and changes
nothing. -/
theorem C1_book_slot_spec_witness :
    ((book_slot [("p001", [⟨"p001", "2026-01-15", ["09:00", "14:00"]⟩])]
        "p001" "2026-01-15" "09:00").1 = true ∧
      get_available_slots (book_slot [("p001", [⟨"p001", "2026-01-15", ["09:00", "14:00"]⟩])]
        "p001" "2026-01-15" "09:00").2 "p001" "2026-01-15" = ["14:00"]) ∧
    book_slot [("p001", [⟨"p001", "2026-01-15", ["09:00", "14:00"]⟩])]
        "p001" "2026-01-15" "11:00"
      = (false, [("p001", [⟨"p001", "2026-01-15", ["09:00", "14:00"]⟩])]) := by
  refine ⟨?_, ?_⟩
  · obtain ⟨h1, h2, -, -⟩ :=
      (C1_book_slot_spec [("p001", [⟨"p001", "2026-01-15", ["09:00", "14:00"]⟩])]
        "p001" "2026-01-15" "09:00" (by decide) (by decide)).1 (by decide)
    exact ⟨h1, h2.trans (by decide)⟩
  · obtain ⟨h1, h2⟩ :=
      (C1_book_slot_spec [("p001", [⟨"p001", "2026-01-15", ["09:00", "14:00"]⟩])]
        "p001" "2026-01-15" "11:00" (by decide) (by decide)).2 (by decide)
    exact Prod.ext h1 h2

/-! ### CSV persistence (save_schedules_to_csv / clear_schedule_cache) -/

/-- Stable insertion sort by a boolean "less or equal" relation, embedding
Python's stable `sorted`. -/
def insertSorted {α : Type} (le : α → α → Bool) (x : α) : List α → List α
  | [] => [x]
  | y :: ys => if le x y then x :: y :: ys else y :: insertSorted le x ys

/-- Python `sorted` (stable). -/
def sortBy {α : Type} (le : α → α → Bool) : List α → List α
  | [] => []
  | x :: xs => insertSorted le x (sortBy le xs)

/-- `save_schedules_to_csv` writes one CSV row per schedule entry, providers
sorted by id and each provider's entries sorted by date; reloading the file
groups rows by provider in row order. The CSV contents are therefore embedded
as the `ScheduleDB` this round trip produces. -/
def save_schedules_to_csv (db : ScheduleDB) : ScheduleDB :=
  (sortBy (fun a b => a.1 ≤ b.1) db).map
    (fun e => (e.1, sortBy (fun a b => a.date ≤ b.date) e.2))

/-- The schedule-store state: the in-memory `SCHEDULES_DB` plus the backing
CSV file it is loaded from / saved to. -/
structure SchedState where
  db : ScheduleDB
  csv : ScheduleDB
deriving DecidableEq

/-- `book_slot` including its persistence step: on success the updated
in-memory store is immediately saved back to the CSV file (the successful-save
path; a failed save only logs). -/
def book_slot_persist (st : SchedState) (pid date time : String) : Bool × SchedState :=
  match book_slot st.db pid date time with
  | (true, db') => (true, { db := db', csv := save_schedules_to_csv db' })
  | (false, _) => (false, st)

/-- `clear_schedule_cache`: re-run `initialize_database`, i.e. reload the
in-memory store from the CSV file. -/
def clear_schedule_cache (st : SchedState) : SchedState :=
  { st with db := st.csv }

/-- C7 (code bug): because `book_slot` persists each successful booking to the
very CSV file that `clear_schedule_cache` reloads, the reset does NOT restore
the pre-booking state: the booked slot stays missing. Evaluated at a concrete
store with one provider, one date and two slots. -/
theorem C7_clear_cache_does_not_restore :
    (book_slot_persist
        ⟨[("p001", [⟨"p001", "2026-01-15", ["09:00", "14:00"]⟩])],
         [("p001", [⟨"p001", "2026-01-15", ["09:00", "14:00"]⟩])]⟩
        "p001" "2026-01-15" "09:00").1 = true ∧
    get_available_slots
        (clear_schedule_cache
          (book_slot_persist
            ⟨[("p001", [⟨"p001", "2026-01-15", ["09:00", "14:00"]⟩])],
             [("p001", [⟨"p001", "2026-01-15", ["09:00", "14:00"]⟩])]⟩
            "p001" "2026-01-15" "09:00").2).db
        "p001" "2026-01-15" = ["14:00"] ∧
    "09:00" ∉ get_available_slots
        (clear_schedule_cache
          (book_slot_persist
            ⟨[("p001", [⟨"p001", "2026-01-15", ["09:00", "14:00"]⟩])],
             [("p001", [⟨"p001", "2026-01-15", ["09:00", "14:00"]⟩])]⟩
            "p001" "2026-01-15" "09:00").2).db
        "p001" "2026-01-15" := by
  refine ⟨by decide, by decide, by decide⟩

/-! ## Constants (backend/models/constants.py) -/

/-- `ConversationState`: the five states of the conversation flow. -/
inductive ConversationState where
  | INITIAL
  | ISSUE_IDENTIFIED
  | PROVIDER_MATCHED
  | AVAILABILITY_CHECKED
  | APPOINTMENT_CONFIRMED
deriving DecidableEq

/-- `Specialty`: the nine medical specialties. -/
inductive Specialty where
  | GENERAL_PRACTITIONER
  | DERMATOLOGIST
  | CARDIOLOGIST
  | NEUROLOGIST
  | ORTHOPEDIST
  | PEDIATRICIAN
  | PSYCHIATRIST
  | OPHTHALMOLOGIST
  | ENT_SPECIALIST
deriving DecidableEq, Fintype

/-- The string value of each `Specialty` enum member. -/
def specialtyStr : Specialty → String
  | .GENERAL_PRACTITIONER => "General Practitioner"
  | .DERMATOLOGIST => "Dermatologist"
  | .CARDIOLOGIST => "Cardiologist"
  | .NEUROLOGIST => "Neurologist"
  | .ORTHOPEDIST => "Orthopedist"
  | .PEDIATRICIAN => "Pediatrician"
  | .PSYCHIATRIST => "Psychiatrist"
  | .OPHTHALMOLOGIST => "Ophthalmologist"
  | .ENT_SPECIALIST => "ENT Specialist"

/-- `ISSUE_TO_SPECIALTY`: the ordered keyword-to-specialty table (a Python
dict iterates in insertion order, so the source order is kept). -/
def ISSUE_TO_SPECIALTY : List (String × Specialty) := [
  ("rash", .DERMATOLOGIST),
  ("acne", .DERMATOLOGIST),
  ("eczema", .DERMATOLOGIST),
  ("psoriasis", .DERMATOLOGIST),
  ("skin", .DERMATOLOGIST),
  ("mole", .DERMATOLOGIST),
  ("chest pain", .CARDIOLOGIST),
  ("heart", .CARDIOLOGIST),
  ("palpitations", .CARDIOLOGIST),
  ("blood pressure", .CARDIOLOGIST),
  ("headache", .NEUROLOGIST),
  ("migraine", .NEUROLOGIST),
  ("seizure", .NEUROLOGIST),
  ("dizziness", .NEUROLOGIST),
  ("numbness", .NEUROLOGIST),
  ("back pain", .ORTHOPEDIST),
  ("back", .ORTHOPEDIST),
  ("joint pain", .ORTHOPEDIST),
  ("joint", .ORTHOPEDIST),
  ("fracture", .ORTHOPEDIST),
  ("arthritis", .ORTHOPEDIST),
  ("sprain", .ORTHOPEDIST),
  ("knee", .ORTHOPEDIST),
  ("shoulder", .ORTHOPEDIST),
  ("child", .PEDIATRICIAN),
  ("baby", .PEDIATRICIAN),
  ("infant", .PEDIATRICIAN),
  ("depression", .PSYCHIATRIST),
  ("anxiety", .PSYCHIATRIST),
  ("panic", .PSYCHIATRIST),
  ("stress", .PSYCHIATRIST),
  ("vision", .OPHTHALMOLOGIST),
  ("eye", .OPHTHALMOLOGIST),
  ("blurry", .OPHTHALMOLOGIST),
  ("ear", .ENT_SPECIALIST),
  ("throat", .ENT_SPECIALIST),
  ("nose", .ENT_SPECIALIST),
  ("sinus", .ENT_SPECIALIST),
  ("hearing", .ENT_SPECIALIST)]

/-! ## Provider directory (backend/database/providers.py) -/

/-- `Provider` (backend/models/schemas.py). `rating` is a Python float with
one decimal digit that the source only ever compares, so it is embedded in
tenths of a star (`4.8 ↦ 48`), which preserves the comparison order exactly. -/
structure Provider where
  id : String
  name : String
  specialty : Specialty
  experience_years : ℕ
  rating : ℕ
  location : String
deriving DecidableEq

/-- `PROVIDERS_DB`: the shipped static provider directory (ratings in
tenths). -/
def PROVIDERS_DB : List Provider := [
  ⟨"p001", "Dr. Sarah Johnson", .DERMATOLOGIST, 15, 48, "123 Medical Plaza, Suite 200"⟩,
  ⟨"p002", "Dr. Michael Chen", .DERMATOLOGIST, 8, 46, "456 Healthcare Center, Floor 3"⟩,
  ⟨"p003", "Dr. Emily Rodriguez", .CARDIOLOGIST, 20, 49, "789 Heart Institute, Building A"⟩,
  ⟨"p004", "Dr. David Kim", .NEUROLOGIST, 12, 47, "321 Neurology Center, 2nd Floor"⟩,
  ⟨"p005", "Dr. Jennifer Williams", .ORTHOPEDIST, 18, 48, "654 Orthopedic Clinic, Suite 100"⟩,
  ⟨"p006", "Dr. Robert Taylor", .GENERAL_PRACTITIONER, 25, 45, "987 Family Health Center"⟩,
  ⟨"p007", "Dr. Lisa Anderson", .PEDIATRICIAN, 14, 49, "147 Children's Medical Center"⟩,
  ⟨"p008", "Dr. James Martinez", .PSYCHIATRIST, 16, 47, "258 Mental Health Associates"⟩,
  ⟨"p009", "Dr. Patricia Brown", .OPHTHALMOLOGIST, 22, 48, "369 Vision Care Center"⟩,
  ⟨"p010", "Dr. Christopher Lee", .ENT_SPECIALIST, 10, 46, "741 ENT Clinic, Suite 300"⟩]

/-- `get_provider_by_id`: linear scan for the first provider with this id. -/
def get_provider_by_id (pid : String) : Option Provider :=
  PROVIDERS_DB.find? (fun p => p.id == pid)

/-- `get_providers_by_specialty`. -/
def get_providers_by_specialty (s : Specialty) : List Provider :=
  PROVIDERS_DB.filter (fun p => p.specialty == s)

/-- Python's lexicographic `<` on the `(rating, experience_years)` key tuple. -/
def keyLt (a b : ℕ × ℕ) : Bool :=
  decide (a.1 < b.1) || (a.1 == b.1 && decide (a.2 < b.2))

/-- The `(rating, experience_years)` key used by `max` and `sort`. -/
def providerKey (p : Provider) : ℕ × ℕ := (p.rating, p.experience_years)

/-- Python `max(providers, key=...)`: keeps the current value on ties, so the
first provider with the maximal key wins. -/
def pyMaxProviders (p : Provider) (ps : List Provider) : Provider :=
  ps.foldl (fun best q => if keyLt (providerKey best) (providerKey q) then q else best) p

/-- `get_best_provider_for_specialty`: `None` when the specialty has no
provider, otherwise the `max` by `(rating, experience_years)`. -/
def get_best_provider_for_specialty (s : Specialty) : Option Provider :=
  match get_providers_by_specialty s with
  | [] => none
  | p :: ps => some (pyMaxProviders p ps)

-- scratch sanity checks
example : get_best_provider_for_specialty .DERMATOLOGIST =
    some ⟨"p001", "Dr. Sarah Johnson", .DERMATOLOGIST, 15, 48, "123 Medical Plaza, Suite 200"⟩ := by
  decide

/-- C3: for every specialty with at least one provider, the provider selected
by `get_best_provider_for_specialty` belongs to that specialty's provider list
and is greatest there under the lexicographic `(rating, experience_years)`
order. -/
theorem C3_best_provider_max (s : Specialty) (h : get_providers_by_specialty s ≠ []) :
    ∃ p, get_best_provider_for_specialty s = some p ∧
      p ∈ get_providers_by_specialty s ∧
      ∀ q ∈ get_providers_by_specialty s,
        q.rating < p.rating ∨ (q.rating = p.rating ∧ q.experience_years ≤ p.experience_years) := by
  cases s <;> exact ⟨_, rfl, by decide, by decide⟩

/-- Witness for C3 at the Dermatologist specialty (two providers). -/
theorem C3_best_provider_max_witness :
    get_providers_by_specialty .DERMATOLOGIST ≠ [] ∧
    ∃ p, get_best_provider_for_specialty .DERMATOLOGIST = some p ∧
      p ∈ get_providers_by_specialty .DERMATOLOGIST ∧
      ∀ q ∈ get_providers_by_specialty .DERMATOLOGIST,
        q.rating < p.rating ∨ (q.rating = p.rating ∧ q.experience_years ≤ p.experience_years) :=
  ⟨by decide, C3_best_provider_max .DERMATOLOGIST (by decide)⟩

/-! ## Provider matcher (backend/llm/provider_matcher.py) -/

/-- `ProviderMatch` (backend/models/schemas.py); `confidence` is only ever
written as the exact literals 0.9/0.6, kept as `ℚ`. -/
structure ProviderMatch where
  provider_id : String
  provider_name : String
  specialty : Specialty
  match_reason : String
  confidence : ℚ

/-- `health_issue.lower()`: ASCII lowering (every keyword in the table is
pure lowercase ASCII). -/
def lowerChars (s : String) : List Char := s.data.map Char.toLower

/-- Python's substring test `needle in haystack` (contiguous substring). -/
def listIsInfix (needle : List Char) : List Char → Bool
  | [] => needle.isEmpty
  | c :: rest => needle.isPrefixOf (c :: rest) || listIsInfix needle rest

/-- The keyword scan of `match_provider_for_issue`: first table entry (in
insertion order) whose keyword occurs in the lowercased issue. -/
def findSpecialty (health_issue : String) : Option (String × Specialty) :=
  ISSUE_TO_SPECIALTY.find? (fun kv => listIsInfix kv.1.data (lowerChars health_issue))

/-- `match_provider_for_issue`: keyword hit gives that specialty at
confidence 0.9, otherwise General Practitioner at 0.6; then the best provider
of the resolved specialty, or `None` when the specialty has no provider. -/
def match_provider_for_issue (health_issue : String) : Option ProviderMatch :=
  match findSpecialty health_issue with
  | some (kw, sp) =>
    (get_best_provider_for_specialty sp).map (fun p =>
      { provider_id := p.id, provider_name := p.name, specialty := p.specialty,
        match_reason :=
          "Identified '" ++ kw ++ "' in health issue, recommending " ++ specialtyStr sp,
        confidence := 0.9 })
  | none =>
    (get_best_provider_for_specialty .GENERAL_PRACTITIONER).map (fun p =>
      { provider_id := p.id, provider_name := p.name, specialty := p.specialty,
        match_reason :=
          "No specific specialty identified, recommending general practitioner for initial evaluation",
        confidence := 0.6 })

/-- Every specialty of the shipped directory has a best provider. -/
lemma best_isSome (s : Specialty) : (get_best_provider_for_specialty s).isSome := by
  cases s <;> decide

/-- The best provider of a specialty belongs to that specialty. -/
lemma best_specialty_eq (s : Specialty) (p : Provider)
    (h : get_best_provider_for_specialty s = some p) : p.specialty = s := by
  have hall : ∀ t : Specialty,
      (get_best_provider_for_specialty t).all (fun q => q.specialty == t) := by decide
  have := hall s
  rw [h] at this
  simpa using this

/-- C2: when the lowercased issue contains a table keyword, the matcher
resolves the specialty of the first such keyword in table order at
confidence 0.9; when it contains none, it resolves General Practitioner at
confidence 0.6 (the resolved specialty always has a provider in the shipped
directory). Containing a keyword is exactly what makes the scan succeed. -/
theorem C2_match_confidence (issue : String) :
    (∀ kw sp, findSpecialty issue = some (kw, sp) →
      ∃ pm, match_provider_for_issue issue = some pm ∧
        pm.specialty = sp ∧ pm.confidence = 0.9) ∧
    (findSpecialty issue = none →
      ∃ pm, match_provider_for_issue issue = some pm ∧
        pm.specialty = .GENERAL_PRACTITIONER ∧ pm.confidence = 0.6) ∧
    ((∃ kv ∈ ISSUE_TO_SPECIALTY, listIsInfix kv.1.data (lowerChars issue)) ↔
      (findSpecialty issue).isSome) := by
  refine ⟨?_, ?_, ?_⟩
  · intro kw sp h
    obtain ⟨p, hp⟩ := Option.isSome_iff_exists.mp (best_isSome sp)
    refine ⟨⟨p.id, p.name, p.specialty,
        "Identified '" ++ kw ++ "' in health issue, recommending " ++ specialtyStr sp,
        0.9⟩, ?_, best_specialty_eq sp p hp, rfl⟩
    unfold match_provider_for_issue
    simp [h, hp]
  · intro h
    obtain ⟨p, hp⟩ :=
      Option.isSome_iff_exists.mp (best_isSome .GENERAL_PRACTITIONER)
    refine ⟨⟨p.id, p.name, p.specialty,
        "No specific specialty identified, recommending general practitioner for initial evaluation",
        0.6⟩, ?_, best_specialty_eq _ p hp, rfl⟩
    unfold match_provider_for_issue
    simp [h, hp]
  · unfold findSpecialty
    exact List.find?_isSome.symm

/-- Witness for C2: a keyword hit ("rash" → Dermatologist, 0.9) and a miss
(General Practitioner, 0.6). -/
theorem C2_match_confidence_witness :
    (∃ pm, match_provider_for_issue "I have a rash on my arm" = some pm ∧
      pm.specialty = .DERMATOLOGIST ∧ pm.confidence = 0.9) ∧
    (∃ pm, match_provider_for_issue "hello" = some pm ∧
      pm.specialty = .GENERAL_PRACTITIONER ∧ pm.confidence = 0.6) :=
  ⟨(C2_match_confidence "I have a rash on my arm").1 "rash" .DERMATOLOGIST (by decide),
   (C2_match_confidence "hello").2.1 (by decide)⟩

/-- C10: in the shipped static directory every specialty has at least one
provider, so `match_provider_for_issue` never returns `None`: its
no-provider failure branch is unreachable. -/
theorem C10_matcher_never_fails :
    (∀ s : Specialty, get_providers_by_specialty s ≠ []) ∧
    ∀ issue : String, match_provider_for_issue issue ≠ none := by
  refine ⟨by decide, ?_⟩
  intro issue
  unfold match_provider_for_issue
  cases h : findSpecialty issue with
  | some kv =>
    obtain ⟨kw, sp⟩ := kv
    obtain ⟨p, hp⟩ := Option.isSome_iff_exists.mp (best_isSome sp)
    simp [hp]
  | none =>
    obtain ⟨p, hp⟩ :=
      Option.isSome_iff_exists.mp (best_isSome .GENERAL_PRACTITIONER)
    simp [hp]

/-! ## Conversation manager (backend/llm/conversation_manager.py) -/

/-- The values stored in a conversation's context dict: strings
(health_issue, provider_id, provider_name, patient_name, appointment_id) and
the availability map cached by `check_availability`. -/
inductive CtxVal where
  | str (s : String)
  | avail (a : List (String × List String))
deriving DecidableEq

/-- One conversation record: id, state, message history (role, content) and
the key/value context blob. -/
structure Conversation where
  id : String
  state : ConversationState
  messages : List (String × String)
  context : List (String × CtxVal)
deriving DecidableEq

/-- `ConversationManager.conversations`: conversation id → record. -/
abbrev Mgr := List (String × Conversation)

/-- `create_conversation`: insert a fresh record in INITIAL state with empty
history and context (the uuid4 id is supplied as `freshId`). -/
def create_conversation (m : Mgr) (freshId : String) : String × Mgr :=
  (freshId, dictSet m freshId ⟨freshId, .INITIAL, [], []⟩)

/-- `add_message`: raises `ValueError` for an unknown conversation id,
otherwise appends the message to the history. -/
def add_message (m : Mgr) (cid role content : String) : Except String Mgr :=
  match dictGet m cid with
  | none => .error ("Conversation " ++ cid ++ " not found")
  | some c => .ok (dictSet m cid { c with messages := c.messages ++ [(role, content)] })

/-- `get_messages`: `[]` for an unknown conversation id. -/
def get_messages (m : Mgr) (cid : String) : List (String × String) :=
  match dictGet m cid with
  | none => []
  | some c => c.messages

/-- `get_state`: INITIAL for an unknown conversation id. -/
def get_state (m : Mgr) (cid : String) : ConversationState :=
  match dictGet m cid with
  | none => .INITIAL
  | some c => c.state

/-- `set_state`: raises `ValueError` for an unknown conversation id. -/
def set_state (m : Mgr) (cid : String) (st : ConversationState) : Except String Mgr :=
  match dictGet m cid with
  | none => .error ("Conversation " ++ cid ++ " not found")
  | some c => .ok (dictSet m cid { c with state := st })

/-- `update_context`: raises `ValueError` for an unknown conversation id. -/
def update_context (m : Mgr) (cid key : String) (v : CtxVal) : Except String Mgr :=
  match dictGet m cid with
  | none => .error ("Conversation " ++ cid ++ " not found")
  | some c => .ok (dictSet m cid { c with context := dictSet c.context key v })

/-- The single Python value `get_context` returns: `None` (unknown
conversation, or key given but absent), one context value, or the whole
context dict. -/
inductive CtxReturn where
  | nothing
  | value (v : CtxVal)
  | full (ctx : List (String × CtxVal))
deriving DecidableEq

/-- `get_context`: `None` for an unknown conversation id; with a truthy key,
`context.get(key)`; otherwise (key `None` or `""`) the whole context dict. -/
def get_context (m : Mgr) (cid : String) (key : Option String) : CtxReturn :=
  match dictGet m cid with
  | none => .nothing
  | some c =>
    match key with
    | some k =>
      if k ≠ "" then
        match dictGet c.context k with
        | some v => .value v
        | none => .nothing
      else .full c.context
    | none => .full c.context

/-- C6: a freshly created conversation is in INITIAL state with empty message
list and context; for an id absent from the manager the mutating operations
fail with a not-found error while the read operations return `[]`, INITIAL
and `None` without failing. -/
theorem C6_manager_unknown_id (m : Mgr) (freshId cid : String) :
    (get_state (create_conversation m freshId).2 (create_conversation m freshId).1 = .INITIAL ∧
     get_messages (create_conversation m freshId).2 (create_conversation m freshId).1 = [] ∧
     get_context (create_conversation m freshId).2 (create_conversation m freshId).1 none = .full []) ∧
    (dictGet m cid = none →
      (∀ role content, add_message m cid role content =
        .error ("Conversation " ++ cid ++ " not found")) ∧
      (∀ st, set_state m cid st = .error ("Conversation " ++ cid ++ " not found")) ∧
      (∀ key v, update_context m cid key v =
        .error ("Conversation " ++ cid ++ " not found")) ∧
      get_messages m cid = [] ∧
      get_state m cid = .INITIAL ∧
      ∀ key, get_context m cid key = .nothing) := by
  constructor
  · refine ⟨?_, ?_, ?_⟩ <;>
      simp [create_conversation, get_state, get_messages, get_context, dictGet_dictSet_self]
  · intro h
    refine ⟨?_, ?_, ?_, ?_, ?_, ?_⟩ <;>
      simp [add_message, set_state, update_context, get_messages, get_state, get_context, h]

/-- Witness for C6 on the empty manager and an unknown id. -/
theorem C6_manager_unknown_id_witness :
    (∀ role content, add_message [] "missing" role content =
      .error ("Conversation " ++ "missing" ++ " not found")) ∧
    get_messages [] "missing" = [] ∧
    get_state [] "missing" = .INITIAL ∧
    get_state (create_conversation [] "c1").2 (create_conversation [] "c1").1 = .INITIAL := by
  obtain ⟨hfresh, hmiss⟩ := C6_manager_unknown_id [] "c1" "missing"
  obtain ⟨hadd, -, -, hmsgs, hstate, -⟩ := hmiss (by decide)
  exact ⟨hadd, hmsgs, hstate, hfresh.1⟩

/-! ## Date and time parsing (datetime.strptime as used by the services) -/

/-- Python `str.split(sep)` for a single-character separator on a char list
(`"".split(sep)` gives `[""]`, i.e. `[[]]`). -/
def splitOnChar (c : Char) : List Char → List (List Char)
  | [] => [[]]
  | x :: xs =>
    match splitOnChar c xs with
    | [] => [[]]
    | h :: t => if x == c then [] :: h :: t else (x :: h) :: t

/-- Digit accumulator for `int()` on a digit string. -/
def parseNatAux (acc : ℕ) : List Char → Option ℕ
  | [] => some acc
  | c :: cs => if c.isDigit then parseNatAux (acc * 10 + (c.toNat - 48)) cs else none

/-- `int()` restricted to nonempty digit strings (the only shapes fed to it
here are `HH`-style numeric fields; anything else raises, i.e. `none`). -/
def parseNatChars : List Char → Option ℕ
  | [] => none
  | c :: cs => parseNatAux 0 (c :: cs)

/-- Gregorian leap year, as `calendar`/`datetime` define it. -/
def isLeap (y : ℕ) : Bool :=
  (decide (y % 4 = 0) && decide (y % 100 ≠ 0)) || decide (y % 400 = 0)

/-- Days in a month (`datetime.strptime` validates the day against it). -/
def daysInMonth (y m : ℕ) : ℕ :=
  match m with
  | 1 => 31 | 2 => if isLeap y then 29 else 28 | 3 => 31 | 4 => 30
  | 5 => 31 | 6 => 30 | 7 => 31 | 8 => 31 | 9 => 30 | 10 => 31
  | 11 => 30 | 12 => 31 | _ => 0

/-- `datetime.strptime(s, "%Y-%m-%d")`: year-month-day fields separated by
`-`, fully validated (year 1..9999, month 1..12, day within the month);
failure (a raised `ValueError`) is `none`. -/
def parseDate (s : String) : Option (ℕ × ℕ × ℕ) :=
  match splitOnChar '-' s.data with
  | [ys, ms, ds] =>
    match parseNatChars ys, parseNatChars ms, parseNatChars ds with
    | some y, some m, some d =>
      if 1 ≤ y ∧ y ≤ 9999 ∧ 1 ≤ m ∧ m ≤ 12 ∧ 1 ≤ d ∧ d ≤ daysInMonth y m then
        some (y, m, d)
      else none
    | _, _, _ => none
  | _ => none

/-- `datetime.strptime(s, "%H:%M")`. -/
def parseTime (s : String) : Option (ℕ × ℕ) :=
  match splitOnChar ':' s.data with
  | [hs, ms] =>
    match parseNatChars hs, parseNatChars ms with
    | some h, some mi => if h ≤ 23 ∧ mi ≤ 59 then some (h, mi) else none
    | _, _ => none
  | _ => none

/-- Day count of a civil date (days since 0000-03-01; the standard
days-from-civil formula, total in `ℕ` since the parser guarantees year ≥ 1). -/
def dayNumber (y m d : ℕ) : ℕ :=
  let y' := if m ≤ 2 then y - 1 else y
  let era := y' / 400
  let yoe := y' % 400
  let mp := (m + 9) % 12
  let doy := (153 * mp + 2) / 5 + d - 1
  let doe := yoe * 365 + yoe / 4 - yoe / 100 + doy
  era * 146097 + doe

/-- A `datetime` instant measured in minutes (`timedelta(minutes=30)` is
`+ 30` on this scale). -/
def dateTimeMinutes (y m d hh mi : ℕ) : ℕ :=
  dayNumber y m d * 1440 + hh * 60 + mi

-- sanity anchors for the calendar arithmetic
example : dayNumber 1970 1 1 = 719468 := by decide
example : (dayNumber 1970 1 1 + 3) % 7 = 4 := by decide
example : dayNumber 2026 1 15 - dayNumber 2026 1 14 = 1 := by decide
example : dayNumber 2024 3 1 - dayNumber 2024 2 28 = 2 := by decide

/-! ## Appointment service (backend/services/appointment_service.py) -/

/-- `AppointmentCreate` (backend/models/schemas.py). -/
structure AppointmentCreate where
  patient_name : String
  provider_id : String
  date : String
  time : String
  reason : Option String
deriving DecidableEq

/-- `Appointment` (backend/models/schemas.py). The wall-clock `created_at`
default field is omitted: it would make every operation depend on an ambient
clock and no claim mentions it. -/
structure Appointment where
  id : String
  patient_name : String
  provider_id : String
  provider_name : String
  date : String
  time : String
  location : String
  reason : Option String
deriving DecidableEq

/-- `_APPOINTMENTS_DB`: appointment id → record. -/
abbrev ApptDB := List (String × Appointment)

/-- `create_appointment`: `None` when the provider id is unknown or the slot
cannot be booked; otherwise books the slot (persisting it) and stores a new
appointment record snapshotting the provider's current name and location.
The `uuid4` id is supplied as `freshId`. -/
def create_appointment (st : SchedState) (appts : ApptDB) (freshId : String)
    (data : AppointmentCreate) : Option Appointment × SchedState × ApptDB :=
  match get_provider_by_id data.provider_id with
  | none => (none, st, appts)
  | some provider =>
    match book_slot_persist st data.provider_id data.date data.time with
    | (true, st') =>
      let appt : Appointment :=
        ⟨freshId, data.patient_name, data.provider_id, provider.name,
          data.date, data.time, provider.location, data.reason⟩
      (some appt, st', dictSet appts freshId appt)
    | (false, st') => (none, st', appts)

/-- The VEVENT built by `generate_ics_file` (the wall-clock `dtstamp`
property is omitted for the same reason as `created_at`). -/
structure IcsEvent where
  summary : String
  location : String
  dtstartMin : ℕ
  dtendMin : ℕ
  description : String
  uid : String
deriving DecidableEq

/-- The VCALENDAR built by `generate_ics_file`. -/
structure IcsCalendar where
  prodid : String
  version : String
  event : IcsEvent
deriving DecidableEq

/-- `generate_ics_file`: parse the appointment's date and time (a raised
`ValueError` is `none`), build a 30-minute event carrying summary, location,
description (patient, provider, optional reason) and the appointment id as
uid. -/
def generate_ics_file (a : Appointment) : Option IcsCalendar :=
  match parseDate a.date, parseTime a.time with
  | some (y, m, d), some (hh, mi) =>
    some { prodid := "-//Appointment Scheduler//EN", version := "2.0",
           event := {
             summary := "Appointment with " ++ a.provider_name,
             location := a.location,
             dtstartMin := dateTimeMinutes y m d hh mi,
             dtendMin := dateTimeMinutes y m d hh mi + 30,
             description := "Patient: " ++ a.patient_name ++ "\n" ++
               "Provider: " ++ a.provider_name ++ "\n" ++
               (match a.reason with
                | some r => "Reason: " ++ r ++ "\n"
                | none => ""),
             uid := a.id } }
  | _, _ => none

/-- Modelled from the spec: the byte serialization `cal.to_ical()` of the
external `icalendar` library, which is not part of this repository. Each
property is rendered on its own CRLF-terminated line between the
`BEGIN`/`END` component markers; timestamps are rendered from the event's
minute scale (the spec constrains only the markers and the embedded names,
not the timestamp syntax). -/
def renderIcs (c : IcsCalendar) : String :=
  "BEGIN:VCALENDAR\r\nPRODID:" ++ c.prodid ++
  "\r\nVERSION:" ++ c.version ++
  "\r\nBEGIN:VEVENT\r\nSUMMARY:" ++ c.event.summary ++
  "\r\nLOCATION:" ++ c.event.location ++
  "\r\nDTSTART:" ++ toString c.event.dtstartMin ++
  "\r\nDTEND:" ++ toString c.event.dtendMin ++
  "\r\nDESCRIPTION:" ++ c.event.description ++
  "\r\nUID:" ++ c.event.uid ++
  "\r\nEND:VEVENT\r\nEND:VCALENDAR\r\n"

/-- Python's `in` on strings. -/
def strContains (hay needle : String) : Bool :=
  listIsInfix needle.data hay.data

lemma listIsInfix_nil_needle (hay : List Char) : listIsInfix [] hay = true := by
  induction hay with
  | nil => rfl
  | cons c rest ih => simp [listIsInfix, ih]

lemma listIsInfix_cons_of (c : Char) (n rest : List Char)
    (h : listIsInfix n rest = true) : listIsInfix n (c :: rest) = true := by
  simp [listIsInfix, h]

lemma listIsInfix_self_append (n post : List Char) : listIsInfix n (n ++ post) = true := by
  cases n with
  | nil => simpa using listIsInfix_nil_needle post
  | cons c cs =>
    show listIsInfix (c :: cs) (c :: (cs ++ post)) = true
    have hpre : (c :: cs).isPrefixOf (c :: (cs ++ post)) = true := by
      rw [List.isPrefixOf_iff_prefix]
      exact List.prefix_append _ _
    simp [listIsInfix, hpre]

lemma listIsInfix_append_left_of (pre n post : List Char) :
    listIsInfix n (pre ++ n ++ post) = true := by
  induction pre with
  | nil => simpa using listIsInfix_self_append n post
  | cons c cs ih => exact listIsInfix_cons_of c n (cs ++ n ++ post) ih

lemma listIsInfix_of_infix {n hay : List Char} (h : n <:+: hay) :
    listIsInfix n hay = true := by
  obtain ⟨pre, post, heq⟩ := h
  rw [← heq]
  exact listIsInfix_append_left_of pre n post

lemma listIsInfix_sound {n hay : List Char} (h : listIsInfix n hay = true) :
    n <:+: hay := by
  induction hay with
  | nil =>
    have : n = [] := by simpa [listIsInfix, List.isEmpty_iff] using h
    simp [this]
  | cons c rest ih =>
    have h' : n <+: (c :: rest) ∨ listIsInfix n rest = true := by
      simpa [listIsInfix, List.isPrefixOf_iff_prefix] using h
    rcases h' with hp | hr
    · exact hp.isInfix
    · exact (ih hr).trans (List.infix_cons (List.infix_refl rest))

lemma strContains_append_left (a b n : String) (h : strContains a n = true) :
    strContains (a ++ b) n = true := by
  show listIsInfix n.data (a.data ++ b.data) = true
  exact listIsInfix_of_infix ((listIsInfix_sound h).trans (List.prefix_append _ _).isInfix)

lemma strContains_append_right (a b n : String) (h : strContains b n = true) :
    strContains (a ++ b) n = true := by
  show listIsInfix n.data (a.data ++ b.data) = true
  exact listIsInfix_of_infix ((listIsInfix_sound h).trans (List.suffix_append _ _).isInfix)

lemma strContains_self (s : String) : strContains s s = true := by
  show listIsInfix s.data s.data = true
  simpa using listIsInfix_self_append s.data []

/-- C4: creating an appointment for an existing provider and a currently
available slot yields a record snapshotting the provider's name and location,
and the generated invite is a 30-minute event starting at the appointment's
date+time whose uid is the appointment id and whose rendered bytes contain
the patient's name, the provider's name and the BEGIN:VCALENDAR and
BEGIN:VEVENT markers. -/
theorem C4_create_appointment_invite (st : SchedState) (appts : ApptDB)
    (freshId : String) (data : AppointmentCreate) (provider : Provider)
    (y m d hh mi : ℕ)
    (hp : get_provider_by_id data.provider_id = some provider)
    (hs : data.time ∈ get_available_slots st.db data.provider_id data.date)
    (hd : parseDate data.date = some (y, m, d))
    (ht : parseTime data.time = some (hh, mi)) :
    ∃ appt cal,
      (create_appointment st appts freshId data).1 = some appt ∧
      appt.provider_name = provider.name ∧
      appt.location = provider.location ∧
      appt.patient_name = data.patient_name ∧
      appt.id = freshId ∧
      generate_ics_file appt = some cal ∧
      cal.event.uid = appt.id ∧
      cal.event.dtstartMin = dateTimeMinutes y m d hh mi ∧
      cal.event.dtendMin = cal.event.dtstartMin + 30 ∧
      strContains (renderIcs cal) data.patient_name = true ∧
      strContains (renderIcs cal) provider.name = true ∧
      strContains (renderIcs cal) "BEGIN:VCALENDAR" = true ∧
      strContains (renderIcs cal) "BEGIN:VEVENT" = true := by
  have hbook1 : (book_slot st.db data.provider_id data.date data.time).1 = true :=
    (book_slot_of_mem st.db data.provider_id data.date data.time hs).1
  have hbook : book_slot st.db data.provider_id data.date data.time =
      (true, (book_slot st.db data.provider_id data.date data.time).2) := by
    rw [← hbook1]
  have hcreate : (create_appointment st appts freshId data).1 =
      some ⟨freshId, data.patient_name, data.provider_id, provider.name,
        data.date, data.time, provider.location, data.reason⟩ := by
    unfold create_appointment book_slot_persist
    rw [hp, hbook]
  have hics : generate_ics_file
      ⟨freshId, data.patient_name, data.provider_id, provider.name,
        data.date, data.time, provider.location, data.reason⟩ = some
      { prodid := "-//Appointment Scheduler//EN", version := "2.0",
        event := {
          summary := "Appointment with " ++ provider.name,
          location := provider.location,
          dtstartMin := dateTimeMinutes y m d hh mi,
          dtendMin := dateTimeMinutes y m d hh mi + 30,
          description := "Patient: " ++ data.patient_name ++ "\n" ++
            "Provider: " ++ provider.name ++ "\n" ++
            (match data.reason with
             | some r => "Reason: " ++ r ++ "\n"
             | none => ""),
          uid := freshId } } := by
    unfold generate_ics_file
    rw [hd, ht]
  refine ⟨_, _, hcreate, rfl, rfl, rfl, rfl, hics, rfl, rfl, rfl, ?_, ?_, ?_, ?_⟩
  · unfold renderIcs
    apply strContains_append_left
    apply strContains_append_left
    apply strContains_append_left
    apply strContains_append_right
    apply strContains_append_left
    apply strContains_append_left
    apply strContains_append_left
    apply strContains_append_left
    apply strContains_append_left
    apply strContains_append_right
    exact strContains_self _
  · unfold renderIcs
    apply strContains_append_left
    apply strContains_append_left
    apply strContains_append_left
    apply strContains_append_left
    apply strContains_append_left
    apply strContains_append_left
    apply strContains_append_left
    apply strContains_append_left
    apply strContains_append_left
    apply strContains_append_left
    apply strContains_append_left
    apply strContains_append_right
    apply strContains_append_right
    exact strContains_self _
  · unfold renderIcs
    apply strContains_append_left
    apply strContains_append_left
    apply strContains_append_left
    apply strContains_append_left
    apply strContains_append_left
    apply strContains_append_left
    apply strContains_append_left
    apply strContains_append_left
    apply strContains_append_left
    apply strContains_append_left
    apply strContains_append_left
    apply strContains_append_left
    apply strContains_append_left
    apply strContains_append_left
    apply strContains_append_left
    apply strContains_append_left
    decide
  · unfold renderIcs
    apply strContains_append_left
    apply strContains_append_left
    apply strContains_append_left
    apply strContains_append_left
    apply strContains_append_left
    apply strContains_append_left
    apply strContains_append_left
    apply strContains_append_left
    apply strContains_append_left
    apply strContains_append_left
    apply strContains_append_left
    apply strContains_append_left
    apply strContains_append_right
    decide

/-- Witness for C4: John Doe books the 09:00 slot of 2026-01-15 with provider
p001 (Dr. Sarah Johnson). -/
theorem C4_create_appointment_invite_witness :
    ∃ appt cal,
      (create_appointment
        ⟨[("p001", [⟨"p001", "2026-01-15", ["09:00", "14:00"]⟩])],
         [("p001", [⟨"p001", "2026-01-15", ["09:00", "14:00"]⟩])]⟩
        [] "appt-1" ⟨"John Doe", "p001", "2026-01-15", "09:00", none⟩).1 = some appt ∧
      appt.provider_name = "Dr. Sarah Johnson" ∧
      appt.location = "123 Medical Plaza, Suite 200" ∧
      appt.patient_name = "John Doe" ∧
      appt.id = "appt-1" ∧
      generate_ics_file appt = some cal ∧
      cal.event.uid = appt.id ∧
      cal.event.dtstartMin = dateTimeMinutes 2026 1 15 9 0 ∧
      cal.event.dtendMin = cal.event.dtstartMin + 30 ∧
      strContains (renderIcs cal) "John Doe" = true ∧
      strContains (renderIcs cal) "Dr. Sarah Johnson" = true ∧
      strContains (renderIcs cal) "BEGIN:VCALENDAR" = true ∧
      strContains (renderIcs cal) "BEGIN:VEVENT" = true :=
  C4_create_appointment_invite
    ⟨[("p001", [⟨"p001", "2026-01-15", ["09:00", "14:00"]⟩])],
     [("p001", [⟨"p001", "2026-01-15", ["09:00", "14:00"]⟩])]⟩
    [] "appt-1" ⟨"John Doe", "p001", "2026-01-15", "09:00", none⟩
    ⟨"p001", "Dr. Sarah Johnson", .DERMATOLOGIST, 15, 48, "123 Medical Plaza, Suite 200"⟩
    2026 1 15 9 0 (by decide) (by decide) (by decide) (by decide)

/-! ## HTTP endpoint POST /appointments (backend/api/appointments.py) -/

/-- UTF-8 encoding of one character (what `.encode()` produces per code
point). -/
def charUtf8 (c : Char) : List ℕ :=
  let n := c.toNat
  if n < 128 then [n]
  else if n < 2048 then [192 + n / 64, 128 + n % 64]
  else if n < 65536 then [224 + n / 4096, 128 + (n / 64) % 64, 128 + n % 64]
  else [240 + n / 262144, 128 + (n / 4096) % 64, 128 + (n / 64) % 64, 128 + n % 64]

/-- The UTF-8 bytes of a string (`cal.to_ical()` yields UTF-8 bytes). -/
def utf8Bytes (s : String) : List ℕ :=
  (s.data.map charUtf8).flatten

/-- The base64 alphabet. -/
def b64Char (n : ℕ) : Char :=
  "ABCDEFGHIJKLMNOPQRSTUVWXYZabcdefghijklmnopqrstuvwxyz0123456789+/".data.getD n 'A'

/-- Standard base64 with `=` padding, three input bytes per four output
characters (`base64.b64encode`). -/
def b64Chunks : List ℕ → List Char
  | b1 :: b2 :: b3 :: rest =>
    b64Char (b1 / 4) :: b64Char ((b1 % 4) * 16 + b2 / 16) ::
    b64Char ((b2 % 16) * 4 + b3 / 64) :: b64Char (b3 % 64) :: b64Chunks rest
  | [b1, b2] =>
    [b64Char (b1 / 4), b64Char ((b1 % 4) * 16 + b2 / 16), b64Char ((b2 % 16) * 4), '=']
  | [b1] => [b64Char (b1 / 4), b64Char ((b1 % 4) * 16), '=', '=']
  | [] => []

/-- `base64.b64encode(bytes).decode('utf-8')`. -/
def base64Encode (bytes : List ℕ) : String := ⟨b64Chunks bytes⟩

-- sanity anchors from RFC 4648 test vectors
example : base64Encode (utf8Bytes "Man") = "TWFu" := by decide
example : base64Encode (utf8Bytes "Ma") = "TWE=" := by decide
example : base64Encode (utf8Bytes "M") = "TQ==" := by decide

/-- `AppointmentConfirmation` (backend/models/schemas.py). -/
structure AppointmentConfirmation where
  appointment_id : String
  patient_name : String
  provider_name : String
  date : String
  time : String
  location : String
  ics_file : Option String
deriving DecidableEq

/-- `create_appointment_with_ics`: create the appointment, generate the
invite and base64-encode it for JSON transport. `None` when creation failed;
`Except.error` when `generate_ics_file` raises after a successful booking. -/
def create_appointment_with_ics (st : SchedState) (appts : ApptDB) (freshId : String)
    (data : AppointmentCreate) :
    Except String (Option AppointmentConfirmation × SchedState × ApptDB) :=
  match create_appointment st appts freshId data with
  | (none, st', appts') => .ok (none, st', appts')
  | (some appt, st', appts') =>
    match generate_ics_file appt with
    | none => .error "ValueError"
    | some cal =>
      .ok (some ⟨appt.id, appt.patient_name, appt.provider_name, appt.date,
        appt.time, appt.location, some (base64Encode (utf8Bytes (renderIcs cal)))⟩,
        st', appts')

/-- An HTTP outcome: a response value or an `HTTPException` with its status
code and detail. -/
inductive ApiResult (α : Type) where
  | ok (value : α)
  | err (status : ℕ) (detail : String)
deriving DecidableEq

/-- `POST /api/appointments` (`create_new_appointment`): 404 when the
provider id is unknown, 400 when the service returns no confirmation,
otherwise the confirmation. The outer `Except` is an exception escaping the
handler. -/
def create_new_appointment (st : SchedState) (appts : ApptDB) (freshId : String)
    (data : AppointmentCreate) :
    Except String (ApiResult AppointmentConfirmation × SchedState × ApptDB) :=
  match get_provider_by_id data.provider_id with
  | none => .ok (.err 404 "Provider not found", st, appts)
  | some _ =>
    match create_appointment_with_ics st appts freshId data with
    | .error e => .error e
    | .ok (none, st', appts') =>
      .ok (.err 400 "Failed to create appointment. The time slot may no longer be available.",
        st', appts')
    | .ok (some conf, st', appts') => .ok (.ok conf, st', appts')

/-- C5: `POST /appointments` returns 404 when the provider id names no
provider; 400 (leaving every store unchanged) when the provider exists but
the requested slot cannot be booked; otherwise a confirmation carrying the
appointment id, patient name, provider name, date, time, location and the
invite base64-encoded. -/
theorem C5_post_appointments (st : SchedState) (appts : ApptDB) (freshId : String)
    (data : AppointmentCreate) :
    (get_provider_by_id data.provider_id = none →
      create_new_appointment st appts freshId data =
        .ok (.err 404 "Provider not found", st, appts)) ∧
    (∀ provider, get_provider_by_id data.provider_id = some provider →
      (book_slot st.db data.provider_id data.date data.time).1 = false →
      create_new_appointment st appts freshId data =
        .ok (.err 400 "Failed to create appointment. The time slot may no longer be available.",
          st, appts)) ∧
    (∀ provider y m d hh mi, get_provider_by_id data.provider_id = some provider →
      data.time ∈ get_available_slots st.db data.provider_id data.date →
      parseDate data.date = some (y, m, d) →
      parseTime data.time = some (hh, mi) →
      ∃ appt cal,
        (create_appointment st appts freshId data).1 = some appt ∧
        generate_ics_file appt = some cal ∧
        appt.id = freshId ∧ appt.patient_name = data.patient_name ∧
        appt.provider_name = provider.name ∧ appt.date = data.date ∧
        appt.time = data.time ∧ appt.location = provider.location ∧
        create_new_appointment st appts freshId data =
          .ok (.ok ⟨appt.id, appt.patient_name, appt.provider_name, appt.date,
              appt.time, appt.location,
              some (base64Encode (utf8Bytes (renderIcs cal)))⟩,
            (create_appointment st appts freshId data).2.1,
            (create_appointment st appts freshId data).2.2)) := by
  refine ⟨?_, ?_, ?_⟩
  · intro h
    unfold create_new_appointment
    rw [h]
  · intro provider hp hb
    have hbook : book_slot st.db data.provider_id data.date data.time =
        (false, (book_slot st.db data.provider_id data.date data.time).2) := by
      rw [← hb]
    have hca : create_appointment st appts freshId data = (none, st, appts) := by
      unfold create_appointment book_slot_persist
      rw [hp, hbook]
    unfold create_new_appointment create_appointment_with_ics
    rw [hp, hca]
  · intro provider y m d hh mi hp hs hd ht
    have hb : (book_slot st.db data.provider_id data.date data.time).1 = true :=
      (book_slot_of_mem st.db data.provider_id data.date data.time hs).1
    have hbook : book_slot st.db data.provider_id data.date data.time =
        (true, (book_slot st.db data.provider_id data.date data.time).2) := by
      rw [← hb]
    have hca : create_appointment st appts freshId data =
        (some ⟨freshId, data.patient_name, data.provider_id, provider.name,
            data.date, data.time, provider.location, data.reason⟩,
          ⟨(book_slot st.db data.provider_id data.date data.time).2,
            save_schedules_to_csv
              (book_slot st.db data.provider_id data.date data.time).2⟩,
          dictSet appts freshId
            ⟨freshId, data.patient_name, data.provider_id, provider.name,
              data.date, data.time, provider.location, data.reason⟩) := by
      unfold create_appointment book_slot_persist
      rw [hp, hbook]
    have hics : generate_ics_file
        ⟨freshId, data.patient_name, data.provider_id, provider.name,
          data.date, data.time, provider.location, data.reason⟩ = some
        { prodid := "-//Appointment Scheduler//EN", version := "2.0",
          event := {
            summary := "Appointment with " ++ provider.name,
            location := provider.location,
            dtstartMin := dateTimeMinutes y m d hh mi,
            dtendMin := dateTimeMinutes y m d hh mi + 30,
            description := "Patient: " ++ data.patient_name ++ "\n" ++
              "Provider: " ++ provider.name ++ "\n" ++
              (match data.reason with
               | some r => "Reason: " ++ r ++ "\n"
               | none => ""),
            uid := freshId } } := by
      unfold generate_ics_file
      rw [hd, ht]
    refine ⟨_, _, by rw [hca], hics, rfl, rfl, rfl, rfl, rfl, rfl, ?_⟩
    unfold create_new_appointment create_appointment_with_ics
    simp only [hp, hca, hics]

/-- Witness for C5: an unknown provider gives 404, an unavailable slot gives
400, and a valid booking returns the confirmation. -/
theorem C5_post_appointments_witness :
    create_new_appointment
        ⟨[("p001", [⟨"p001", "2026-01-15", ["09:00", "14:00"]⟩])],
         [("p001", [⟨"p001", "2026-01-15", ["09:00", "14:00"]⟩])]⟩
        [] "appt-1" ⟨"John Doe", "zzz", "2026-01-15", "09:00", none⟩ =
      .ok (.err 404 "Provider not found",
        ⟨[("p001", [⟨"p001", "2026-01-15", ["09:00", "14:00"]⟩])],
         [("p001", [⟨"p001", "2026-01-15", ["09:00", "14:00"]⟩])]⟩, []) ∧
    create_new_appointment
        ⟨[("p001", [⟨"p001", "2026-01-15", ["09:00", "14:00"]⟩])],
         [("p001", [⟨"p001", "2026-01-15", ["09:00", "14:00"]⟩])]⟩
        [] "appt-1" ⟨"John Doe", "p001", "2026-01-15", "10:00", none⟩ =
      .ok (.err 400 "Failed to create appointment. The time slot may no longer be available.",
        ⟨[("p001", [⟨"p001", "2026-01-15", ["09:00", "14:00"]⟩])],
         [("p001", [⟨"p001", "2026-01-15", ["09:00", "14:00"]⟩])]⟩, []) ∧
    ∃ appt cal,
      (create_appointment
        ⟨[("p001", [⟨"p001", "2026-01-15", ["09:00", "14:00"]⟩])],
         [("p001", [⟨"p001", "2026-01-15", ["09:00", "14:00"]⟩])]⟩
        [] "appt-1" ⟨"John Doe", "p001", "2026-01-15", "09:00", none⟩).1 = some appt ∧
      generate_ics_file appt = some cal ∧
      appt.id = "appt-1" ∧ appt.patient_name = "John Doe" ∧
      appt.provider_name = "Dr. Sarah Johnson" ∧ appt.date = "2026-01-15" ∧
      appt.time = "09:00" ∧ appt.location = "123 Medical Plaza, Suite 200" ∧
      create_new_appointment
          ⟨[("p001", [⟨"p001", "2026-01-15", ["09:00", "14:00"]⟩])],
           [("p001", [⟨"p001", "2026-01-15", ["09:00", "14:00"]⟩])]⟩
          [] "appt-1" ⟨"John Doe", "p001", "2026-01-15", "09:00", none⟩ =
        .ok (.ok ⟨appt.id, appt.patient_name, appt.provider_name, appt.date,
            appt.time, appt.location,
            some (base64Encode (utf8Bytes (renderIcs cal)))⟩,
          (create_appointment
            ⟨[("p001", [⟨"p001", "2026-01-15", ["09:00", "14:00"]⟩])],
             [("p001", [⟨"p001", "2026-01-15", ["09:00", "14:00"]⟩])]⟩
            [] "appt-1" ⟨"John Doe", "p001", "2026-01-15", "09:00", none⟩).2.1,
          (create_appointment
            ⟨[("p001", [⟨"p001", "2026-01-15", ["09:00", "14:00"]⟩])],
             [("p001", [⟨"p001", "2026-01-15", ["09:00", "14:00"]⟩])]⟩
            [] "appt-1" ⟨"John Doe", "p001", "2026-01-15", "09:00", none⟩).2.2) := by
  refine ⟨?_, ?_, ?_⟩
  · exact (C5_post_appointments _ [] "appt-1"
      ⟨"John Doe", "zzz", "2026-01-15", "09:00", none⟩).1 (by decide)
  · exact (C5_post_appointments _ [] "appt-1"
      ⟨"John Doe", "p001", "2026-01-15", "10:00", none⟩).2.1
      ⟨"p001", "Dr. Sarah Johnson", .DERMATOLOGIST, 15, 48, "123 Medical Plaza, Suite 200"⟩
      (by decide) (by decide)
  · exact (C5_post_appointments _ [] "appt-1"
      ⟨"John Doe", "p001", "2026-01-15", "09:00", none⟩).2.2
      ⟨"p001", "Dr. Sarah Johnson", .DERMATOLOGIST, 15, 48, "123 Medical Plaza, Suite 200"⟩
      2026 1 15 9 0 (by decide) (by decide) (by decide) (by decide)

/-! ## Schedule service formatting (backend/services/schedule_service.py) -/

/-- `int(slot.split(":")[0])`: hour field of a slot string (`none` when
`int()` would raise). -/
def slotHour (s : String) : Option ℕ :=
  match splitOnChar ':' s.data with
  | h :: _ => parseNatChars h
  | [] => none

/-- `%A`: full weekday name, index 0 = Sunday. -/
def weekdayName (w : ℕ) : String :=
  match w with
  | 0 => "Sunday" | 1 => "Monday" | 2 => "Tuesday" | 3 => "Wednesday"
  | 4 => "Thursday" | 5 => "Friday" | 6 => "Saturday" | _ => ""

/-- `%B`: full month name. -/
def monthName (m : ℕ) : String :=
  match m with
  | 1 => "January" | 2 => "February" | 3 => "March" | 4 => "April"
  | 5 => "May" | 6 => "June" | 7 => "July" | 8 => "August"
  | 9 => "September" | 10 => "October" | 11 => "November" | 12 => "December"
  | _ => ""

/-- `%d`: zero-padded day. -/
def pad2 (n : ℕ) : String :=
  if n < 10 then "0" ++ toString n else toString n

/-- `date_obj.strftime("%A, %B %d, %Y")`. -/
def formatDateLong (y m d : ℕ) : String :=
  weekdayName ((dayNumber y m d + 3) % 7) ++ ", " ++ monthName m ++ " " ++
    pad2 d ++ ", " ++ toString y

-- sanity anchor: 2026-01-15 is a Thursday
example : formatDateLong 2026 1 15 = "Thursday, January 15, 2026" := by decide

/-- One line of `format_availability_message`: pretty date, then the
morning (< 12) and afternoon (≥ 12) slot groups that are nonempty, joined by
`" | "`. `none` when `strptime` or `int()` would raise. -/
def formatAvailLine (date : String) (slots : List String) : Option String :=
  match parseDate date with
  | none => none
  | some (y, m, d) =>
    match slots.mapM slotHour with
    | none => none
    | some _ =>
      let morning := slots.filter (fun s => (slotHour s).any (fun h => decide (h < 12)))
      let afternoon := slots.filter (fun s => (slotHour s).any (fun h => decide (12 ≤ h)))
      let slot_parts :=
        (if morning.isEmpty then [] else ["Morning: " ++ String.intercalate ", " morning]) ++
        (if afternoon.isEmpty then [] else ["Afternoon: " ++ String.intercalate ", " afternoon])
      some (formatDateLong y m d ++ ": " ++ String.intercalate " | " slot_parts)

/-- `format_availability_message`: the fixed no-slots message on an empty
map, otherwise one line per date in sorted date order. -/
def format_availability_message (avail : List (String × List String)) : Option String :=
  if avail.isEmpty then some "No available slots found."
  else
    match (sortBy (fun a b => a.1 ≤ b.1) avail).mapM (fun e => formatAvailLine e.1 e.2) with
    | none => none
    | some lines => some (String.intercalate "\n" lines)

/-- C8: the map `{"2026-01-15": ["09:00","14:00"]}` renders with both the
"Morning" and "Afternoon" labels; the empty map renders exactly the fixed
no-slots message. -/
theorem C8_format_availability_message :
    (∃ msg, format_availability_message [("2026-01-15", ["09:00", "14:00"])] = some msg ∧
      strContains msg "Morning" = true ∧ strContains msg "Afternoon" = true) ∧
    format_availability_message [] = some "No available slots found." :=
  ⟨⟨"Thursday, January 15, 2026: Morning: 09:00 | Afternoon: 14:00",
    by decide, by decide, by decide⟩, by decide⟩

/-! ## Conversation orchestrator tool dispatch (backend/api/conversation.py) -/

/-- `get_availability_summary` (backend/services/schedule_service.py): date →
nonempty slot list, in schedule order (`num_days` is forwarded to
`get_provider_schedule`'s unused `days_ahead`). -/
def get_availability_summary (db : ScheduleDB) (pid : String) (num_days : ℕ) :
    List (String × List String) :=
  ((get_provider_schedule db pid).filter (fun s => !s.available_slots.isEmpty)).map
    (fun s => (s.date, s.available_slots))

/-- The `time_preference` filter on one date's slots: keep morning slots for
"morning" (< 12), afternoon slots for "afternoon" (≥ 12); `int()` raising on
a malformed slot is an error. -/
def filterSlotsByPref (tp : String) : List String → Except String (List String)
  | [] => .ok []
  | s :: rest => do
    let h ← match slotHour s with
      | some h => Except.ok h
      | none => Except.error "ValueError"
    let tail ← filterSlotsByPref tp rest
    let keep := (tp == "morning" && decide (h < 12)) || (tp == "afternoon" && decide (12 ≤ h))
    .ok (if keep then s :: tail else tail)

/-- The `time_preference` filter over the availability map: dates whose
filtered slot list is empty are dropped. -/
def filterAvailByPref (tp : String) :
    List (String × List String) → Except String (List (String × List String))
  | [] => .ok []
  | (date, slots) :: rest => do
    let fs ← filterSlotsByPref tp slots
    let tail ← filterAvailByPref tp rest
    .ok (if fs.isEmpty then tail else (date, fs) :: tail)

/-- A JSON value, the type of a tool-call result payload. -/
inductive JVal where
  | null
  | bool (b : Bool)
  | num (n : ℕ)
  | str (s : String)
  | arr (xs : List JVal)
  | obj (fields : List (String × JVal))

/-- The availability map as JSON. -/
def availabilityJson (a : List (String × List String)) : JVal :=
  .obj (a.map (fun e => (e.1, .arr (e.2.map .str))))

/-- The JSON arguments dict of a tool call, one optional field per
`arguments.get(...)` key the dispatcher reads. -/
structure FnArgs where
  health_issue : Option String := none
  patient_name : Option String := none
  provider_id : Option String := none
  num_days : Option ℕ := none
  time_preference : Option String := none
  date : Option String := none
  time : Option String := none
  reason : Option String := none
deriving DecidableEq

/-- All process-wide state a tool call can touch: the conversation manager,
the schedule store with its CSV backing, and the appointment map. -/
structure World where
  mgr : Mgr
  sched : SchedState
  appts : ApptDB
deriving DecidableEq

/-- `execute_function`: dispatch on the tool name; the three known tools run
against the matcher / schedule store / appointment service and update the
conversation, every other name returns the `Unknown function` error payload.
`Except.error` is a Python exception escaping the dispatcher (unknown
conversation id, missing required argument, or a `strptime`/`int` failure);
such an exception abandons the turn, so no post-raise state is modelled. -/
def execute_function (function_name : String) (args : FnArgs)
    (conversation_id : String) (w : World) (freshId : String) :
    Except String (JVal × World) :=
  if function_name == "identify_provider" then
    match args.health_issue with
    | none => .error "TypeError"
    | some health_issue =>
      match match_provider_for_issue health_issue with
      | none =>
        .ok (.obj [
          ("error", .str "No suitable provider found"),
          ("message", .str ("I apologize, but we don't currently have specialists available for '"
            ++ health_issue ++
            "'. Our available specialties include: General Practitioner, Dermatologist, Cardiologist, Neurologist, Orthopedist, Pediatrician, Psychiatrist, Ophthalmologist, ENT Specialist, and Dentist. Would you like to see a General Practitioner who can help with most health concerns?")),
          ("available_specialties", .arr (["General Practitioner", "Dermatologist",
            "Cardiologist", "Neurologist", "Orthopedist", "Pediatrician", "Psychiatrist",
            "Ophthalmologist", "ENT Specialist", "Dentist"].map .str))], w)
      | some m => do
        let mgr1 ← update_context w.mgr conversation_id "health_issue" (.str health_issue)
        let mgr2 ← update_context mgr1 conversation_id "provider_id" (.str m.provider_id)
        let mgr3 ← update_context mgr2 conversation_id "provider_name" (.str m.provider_name)
        let mgr4 ← match args.patient_name with
          | some pn => update_context mgr3 conversation_id "patient_name" (.str pn)
          | none => Except.ok mgr3
        let mgr5 ← set_state mgr4 conversation_id .PROVIDER_MATCHED
        match get_provider_by_id m.provider_id with
        | none => .error "AttributeError"
        | some provider =>
          .ok (.obj [
            ("provider_id", .str m.provider_id),
            ("provider_name", .str m.provider_name),
            ("specialty", .str (specialtyStr m.specialty)),
            ("experience_years", .num provider.experience_years),
            ("rating", .num provider.rating),
            ("location", .str provider.location),
            ("match_reason", .str m.match_reason)], { w with mgr := mgr5 })
  else if function_name == "check_availability" then
    let num_days := args.num_days.getD 7
    let time_preference := args.time_preference.getD "any"
    let availability := match args.provider_id with
      | some pid => get_availability_summary w.sched.db pid num_days
      | none => []
    match (if time_preference ≠ "" ∧ time_preference ≠ "any" then
        filterAvailByPref time_preference availability
      else .ok availability) with
    | .error e => .error e
    | .ok filtered =>
      if filtered.isEmpty then
        let provider_name := match args.provider_id with
          | some pid =>
            match get_provider_by_id pid with
            | some p => p.name
            | none => "this provider"
          | none => "this provider"
        let time_msg := if time_preference ≠ "any" then " in the " ++ time_preference else ""
        .ok (.obj [
          ("error", .str "No available slots found"),
          ("message", .str ("I apologize, but " ++ provider_name ++
            " doesn't have any available appointment slots" ++ time_msg ++
            " in the next " ++ toString num_days ++
            " days. Would you like me to check availability for a different time period, or would you prefer to see another provider with the same specialty?")),
          ("provider_id", match args.provider_id with
            | some pid => .str pid
            | none => .null)], w)
      else do
        let mgr1 ← update_context w.mgr conversation_id "availability" (.avail filtered)
        let mgr2 ← set_state mgr1 conversation_id .AVAILABILITY_CHECKED
        match format_availability_message filtered with
        | none => .error "ValueError"
        | some msg =>
          .ok (.obj [
            ("provider_id", match args.provider_id with
              | some pid => .str pid
              | none => .null),
            ("availability", availabilityJson filtered),
            ("formatted_message", .str msg)], { w with mgr := mgr2 })
  else if function_name == "create_appointment" then
    match args.patient_name, args.provider_id, args.date, args.time with
    | some patient_name, some provider_id, some date, some time =>
      match create_appointment w.sched w.appts freshId
          ⟨patient_name, provider_id, date, time, args.reason⟩ with
      | (none, st', appts') =>
        .ok (.obj [("error", .str "Failed to create appointment. Slot may no longer be available.")],
          { w with sched := st', appts := appts' })
      | (some appt, st', appts') => do
        let mgr1 ← update_context w.mgr conversation_id "appointment_id" (.str appt.id)
        let mgr2 ← set_state mgr1 conversation_id .APPOINTMENT_CONFIRMED
        .ok (.obj [
          ("success", .bool true),
          ("appointment_id", .str appt.id),
          ("patient_name", .str appt.patient_name),
          ("provider_name", .str appt.provider_name),
          ("date", .str appt.date),
          ("time", .str appt.time),
          ("location", .str appt.location)], { mgr := mgr2, sched := st', appts := appts' })
    | _, _, _, _ => .error "ValidationError"
  else
    .ok (.obj [("error", .str ("Unknown function: " ++ function_name))], w)

/-- C9: for every tool name other than the three known ones, and for any
arguments, `execute_function` returns exactly the `Unknown function` error
payload and leaves the whole world — conversations, schedule store, CSV and
appointment map — unchanged. -/
theorem C9_unknown_function (function_name : String) (args : FnArgs)
    (conversation_id : String) (w : World) (freshId : String)
    (h1 : function_name ≠ "identify_provider")
    (h2 : function_name ≠ "check_availability")
    (h3 : function_name ≠ "create_appointment") :
    execute_function function_name args conversation_id w freshId =
      .ok (.obj [("error", .str ("Unknown function: " ++ function_name))], w) := by
  unfold execute_function
  rw [if_neg (by simp [h1]), if_neg (by simp [h2]), if_neg (by simp [h3])]

/-- Witness for C9: the unknown name "foo" on a concrete populated world. -/
theorem C9_unknown_function_witness :
    execute_function "foo" {} "c1"
      ⟨[("c1", ⟨"c1", .INITIAL, [], []⟩)],
       ⟨[("p001", [⟨"p001", "2026-01-15", ["09:00"]⟩])],
        [("p001", [⟨"p001", "2026-01-15", ["09:00"]⟩])]⟩, []⟩ "id-1" =
      .ok (.obj [("error", .str ("Unknown function: " ++ "foo"))],
        ⟨[("c1", ⟨"c1", .INITIAL, [], []⟩)],
         ⟨[("p001", [⟨"p001", "2026-01-15", ["09:00"]⟩])],
          [("p001", [⟨"p001", "2026-01-15", ["09:00"]⟩])]⟩, []⟩) :=
  C9_unknown_function "foo" {} "c1" _ "id-1" (by decide) (by decide) (by decide)
